import Mathlib

/-!
Verification of the Nuitka optimizer node families described in the repository
specification, shallowly embedded from `src/nuitka/nodes/ExceptionNodes.py` and
`src/nuitka/nodes/ExecEvalNodes.py`.

Child expression nodes are modelled abstractly by the observables the statement
code under verification queries on them: `willRaiseAnyException()`,
`mayRaiseException(c)`, whether the node is the constant `None` literal, and
`getStrValue()`.  The `TraceCollection` collaborator is modelled by a pure
computation oracle for `onExpression` together with an explicit, ordered log of
the facts the verified code records on it (`onExceptionRaiseExit`,
`removeAllKnowledge`, `onLocalsUsage`).  The human-readable rationale strings
attached to rewrites are abstracted away; the machine-readable change tags are
kept.
-/

/-- Exception classes, as passed to `mayRaiseException` / `onExceptionRaiseExit`.
`baseException` is Python's `BaseException`, the broadest class; other classes
are numbered. -/
inductive ExcClass : Type
  | baseException
  | cls (n : Nat)
deriving DecidableEq, Repr, BEq

/-- Abstract child expression node, carrying exactly the observables that the
statement code under verification consults. -/
structure Expr : Type where
  eid : Nat
  will_raise : Bool
  may_raise : List ExcClass
  is_constant_none : Bool
  str_value : Option Nat
deriving DecidableEq, Repr

/-- `willRaiseAnyException()` of a child expression. -/
def Expr.willRaiseAnyException (e : Expr) : Bool := e.will_raise

/-- `mayRaiseException(exception_type)` of a child expression. -/
def Expr.mayRaiseException (e : Expr) (exception_type : ExcClass) : Bool :=
  e.may_raise.contains exception_type

/-- `willRaiseAnyException()` lifted to an optional child: an absent child never
raises (mirrors the `x is not None and x.willRaiseAnyException()` pattern). -/
def raisesOpt : Option Expr → Bool
  | some e => e.willRaiseAnyException
  | none => false

/-- `mayRaiseException(BaseException)` lifted to an optional child (mirrors the
`x is not None and x.mayRaiseException(BaseException)` pattern). -/
def mayRaiseBaseOpt : Option Expr → Bool
  | some e => e.mayRaiseException ExcClass.baseException
  | none => false

/-- A fact recorded on the trace collection by the code under verification, in
call order. -/
inductive TraceEvent : Type
  | exceptionRaiseExit (c : ExcClass)
  | removeAllKnowledge
  | localsUsage (scope : Nat)
deriving DecidableEq, Repr

/-- The `TraceCollection` collaborator: `oracle` gives the (possibly replaced)
result of `onExpression` on a child, `locals_usage` gives the variable-trace
records `onLocalsUsage` returns for a scope, and `events` is the ordered log of
facts recorded so far. -/
structure TraceCollection : Type where
  oracle : Expr → Expr
  locals_usage : Nat → List Nat
  events : List TraceEvent

/-- `trace_collection.onExpression(expression)` on a mandatory child. -/
def TraceCollection.onExpression (tc : TraceCollection) (e : Expr) : Expr :=
  tc.oracle e

/-- `trace_collection.onExpression(expression, allow_none=True)`: an absent
child stays absent with no side effects. -/
def TraceCollection.onExpressionOpt (tc : TraceCollection) (e : Option Expr) : Option Expr :=
  e.map tc.oracle

/-- `trace_collection.onExceptionRaiseExit(c)`. -/
def TraceCollection.onExceptionRaiseExit (tc : TraceCollection) (c : ExcClass) : TraceCollection :=
  { tc with events := tc.events ++ [TraceEvent.exceptionRaiseExit c] }

/-- `trace_collection.removeAllKnowledge()`. -/
def TraceCollection.removeAllKnowledge (tc : TraceCollection) : TraceCollection :=
  { tc with events := tc.events ++ [TraceEvent.removeAllKnowledge] }

/-- `trace_collection.onLocalsUsage(scope)`: records the query and returns the
accumulated records for the scope. -/
def TraceCollection.onLocalsUsage (tc : TraceCollection) (scope : Nat) :
    TraceCollection × List Nat :=
  ({ tc with events := tc.events ++ [TraceEvent.localsUsage scope] }, tc.locals_usage scope)

/-- Machine-readable change tags returned by compute calls. -/
inductive ChangeTag : Type
  | new_raise
  | new_statements
deriving DecidableEq, Repr

/-- The replacement part of a statement compute result: the node itself
(unchanged), a raw expression node spliced in as replacement, or side-effect
only statements wrapping the given expressions. -/
inductive StmtReplacement : Type
  | self
  | rawExpression (e : Expr)
  | exprStatements (es : List Expr)
deriving DecidableEq, Repr

/-- The expressions contained in a replacement. -/
def replacementExprs : StmtReplacement → List Expr
  | StmtReplacement.self => []
  | StmtReplacement.rawExpression e => [e]
  | StmtReplacement.exprStatements es => es

/-- Result of a statement compute call: the replacement plus the change tag
(the rationale string is abstracted away). -/
structure ComputeResult : Type where
  replacement : StmtReplacement
  tag : Option ChangeTag
deriving DecidableEq, Repr

/-- Modelled from the spec: `NodeMakingHelpers.makeStatementOnlyNodesFromExpressions`
is not under src; per the spec the already-evaluated children are kept "as a
side-effect-only sequence", absent children being skipped. -/
def makeStatementOnlyNodesFromExpressions (expressions : List (Option Expr)) : StmtReplacement :=
  StmtReplacement.exprStatements (expressions.filterMap id)

/-- Modelled from the spec: `NodeMakingHelpers.makeStatementExpressionOnlyReplacementNode`
is not under src; it wraps a single expression as a side-effect-only statement
replacing the given node. -/
def makeStatementExpressionOnlyReplacementNode (expression : Expr) : StmtReplacement :=
  StmtReplacement.exprStatements [expression]

/-- Distinguishes `StatementRaiseException` from its diagnostic subclass
`StatementRaiseExceptionImplicit` (same shape, different kind tag). -/
inductive RaiseStmtKind : Type
  | explicitRaise
  | implicitRaise
deriving DecidableEq, Repr

/-- `StatementRaiseException` (and, via `kind`, its subclass
`StatementRaiseExceptionImplicit`): four optional children plus the
`reraise_finally` slot. -/
structure StatementRaiseException : Type where
  kind : RaiseStmtKind
  exception_type : Option Expr
  exception_value : Option Expr
  exception_trace : Option Expr
  exception_cause : Option Expr
  reraise_finally : Bool
deriving DecidableEq, Repr

/-- `StatementRaiseException.__init__`: the three assert statements are
modelled as returning `none` (a fatal internal-consistency fault) when they
fail; a successful construction yields the node with `reraise_finally = False`. -/
def StatementRaiseException.init (exception_type exception_value exception_trace
    exception_cause : Option Expr) : Option StatementRaiseException :=
  if exception_type.isNone then none
  else if exception_type.isNone && exception_value.isSome then none
  else if exception_value.isNone && exception_trace.isSome then none
  else some
    { kind := RaiseStmtKind.explicitRaise
      exception_type := exception_type
      exception_value := exception_value
      exception_trace := exception_trace
      exception_cause := exception_cause
      reraise_finally := false }

/-- Continuation of `StatementRaiseException.computeStatement` after the
`exception_type` child has been evaluated and found not to unconditionally
raise: evaluates `exception_value`, `exception_trace`, `exception_cause` in
order, truncating at the first unconditional raise exactly as the source does. -/
def StatementRaiseException.afterType (node : StatementRaiseException)
    (tc : TraceCollection) (exception_type : Option Expr) :
    ComputeResult × TraceCollection :=
  let exception_value := tc.onExpressionOpt node.exception_value
  if raisesOpt exception_value then
    (⟨makeStatementOnlyNodesFromExpressions [exception_type, exception_value],
      some ChangeTag.new_raise⟩, tc)
  else
    let exception_trace := tc.onExpressionOpt node.exception_trace
    if raisesOpt exception_trace then
      (⟨makeStatementOnlyNodesFromExpressions [exception_type, exception_value, exception_trace],
        some ChangeTag.new_raise⟩, tc)
    else
      let exception_cause := tc.onExpressionOpt node.exception_cause
      if raisesOpt exception_cause then
        (⟨makeStatementOnlyNodesFromExpressions [exception_type, exception_cause],
          some ChangeTag.new_raise⟩, tc)
      else
        (⟨StmtReplacement.self, none⟩, tc)

/-- `StatementRaiseException.computeStatement`: evaluates `exception_type`,
records the `BaseException` raise exit, and short-circuits on the first child
whose evaluation unconditionally raises; the `exception_cause` branch keeps only
`(exception_type, exception_cause)` as in the source. -/
def StatementRaiseException.computeStatement (node : StatementRaiseException)
    (tc0 : TraceCollection) : ComputeResult × TraceCollection :=
  match tc0.onExpressionOpt node.exception_type with
  | some t =>
      if t.willRaiseAnyException then
        (⟨makeStatementExpressionOnlyReplacementNode t, some ChangeTag.new_raise⟩,
          tc0.onExceptionRaiseExit ExcClass.baseException)
      else
        node.afterType (tc0.onExceptionRaiseExit ExcClass.baseException) (some t)
  | none =>
      node.afterType (tc0.onExceptionRaiseExit ExcClass.baseException) none

/-- `StatementReraiseException.computeStatement`: records the `BaseException`
raise exit on the trace collection and returns the node unchanged with no tag. -/
def StatementReraiseException.computeStatement (tc : TraceCollection) :
    ComputeResult × TraceCollection :=
  (⟨StmtReplacement.self, none⟩, tc.onExceptionRaiseExit ExcClass.baseException)

/-- `ExpressionRaiseException`: expression-position raise produced only by
optimization, with mandatory `exception_type` / `exception_value` children and
a parent back-reference (modelled by the parent node's id). -/
structure ExpressionRaiseException : Type where
  exception_type : Expr
  exception_value : Expr
  parent : Option Nat
deriving DecidableEq, Repr

/-- `ExpressionRaiseException.asStatement`: builds the
`StatementRaiseExceptionImplicit` with the same two children and absent
`exception_trace` / `exception_cause`. -/
def ExpressionRaiseException.asStatement (e : ExpressionRaiseException) :
    StatementRaiseException :=
  { kind := RaiseStmtKind.implicitRaise
    exception_type := some e.exception_type
    exception_value := some e.exception_value
    exception_trace := none
    exception_cause := none
    reraise_finally := false }

/-- Result of `ExpressionRaiseException.computeExpressionDrop`: the statement
replacement, the change tag, and the original expression after `del self.parent`. -/
structure ExprDropResult : Type where
  replacement : StatementRaiseException
  tag : Option ChangeTag
  detached : ExpressionRaiseException
deriving DecidableEq, Repr

/-- `ExpressionRaiseException.computeExpressionDrop`: demotes the expression to
`self.asStatement()`, deletes the parent back-reference, and tags the rewrite. -/
def ExpressionRaiseException.computeExpressionDrop (e : ExpressionRaiseException) :
    ExprDropResult :=
  { replacement := e.asStatement
    tag := some ChangeTag.new_raise
    detached := { e with parent := none } }

/-- `ExpressionBuiltinMakeException`: exception construction with a name and a
tuple of constructor arguments. -/
structure ExpressionBuiltinMakeException : Type where
  exception_name : Nat
  args : List Expr
deriving DecidableEq, Repr

/-- `ExpressionBuiltinMakeException.computeExpression`: returns the node
unchanged with no tag. -/
def ExpressionBuiltinMakeException.computeExpression
    (node : ExpressionBuiltinMakeException) (tc : TraceCollection) :
    (ExpressionBuiltinMakeException × Option ChangeTag) × TraceCollection :=
  ((node, none), tc)

/-- `ExpressionBuiltinMakeException.mayRaiseException`: the for-loop over
`subnode_args` returning on the first argument that may raise. -/
def ExpressionBuiltinMakeException.mayRaiseException
    (node : ExpressionBuiltinMakeException) (exception_type : ExcClass) : Bool :=
  node.args.any (fun arg => arg.mayRaiseException exception_type)

/-- `ExpressionBuiltinMakeExceptionImportError`: Python3 ImportError node with
constructor arguments plus optional diagnostic `name` / `path` children. -/
structure ExpressionBuiltinMakeExceptionImportError : Type where
  args : List Expr
  name : Option Expr
  path : Option Expr
deriving DecidableEq, Repr

/-- `ExpressionBuiltinMakeExceptionImportError.computeExpression`: returns the
node unchanged with no tag. -/
def ExpressionBuiltinMakeExceptionImportError.computeExpression
    (node : ExpressionBuiltinMakeExceptionImportError) (tc : TraceCollection) :
    (ExpressionBuiltinMakeExceptionImportError × Option ChangeTag) × TraceCollection :=
  ((node, none), tc)

/-- `ExpressionBuiltinMakeExceptionImportError.mayRaiseException`: the for-loop
over `subnode_args` (the `name` and `path` children are not consulted). -/
def ExpressionBuiltinMakeExceptionImportError.mayRaiseException
    (node : ExpressionBuiltinMakeExceptionImportError) (exception_type : ExcClass) : Bool :=
  node.args.any (fun arg => arg.mayRaiseException exception_type)

/-- Modelled from the spec: `Checkers.convertNoneConstantToNone` is not under
src; per the spec a constant-`None` literal supplied for `globals_arg` /
`locals_arg` "is normalized to argument absent", so an absent child stays
absent and a constant-`None` child becomes absent. -/
def convertNoneConstantToNone : Option Expr → Option Expr
  | none => none
  | some e => if e.is_constant_none then none else some e

/-- `StatementExec`: the exec statement with children `source`, `globals_arg`,
`locals_arg`. -/
structure StatementExec : Type where
  source : Expr
  globals_arg : Option Expr
  locals_arg : Option Expr
deriving DecidableEq, Repr

/-- `StatementExec.__init__`: the `checkers` mapping in the source applies
`convertNoneConstantToNone` to the `globals_arg` and `locals_arg` children.
The checker-application mechanism lives in `NodeBases` (not under src) and is
modelled from the spec: checkers normalize the supplied children at
construction, before any analysis sees them. -/
def StatementExec.init (source_code : Expr) (globals_arg locals_arg : Option Expr) :
    StatementExec :=
  { source := source_code
    globals_arg := convertNoneConstantToNone globals_arg
    locals_arg := convertNoneConstantToNone locals_arg }

/-- `StatementExec.computeStatement`: evaluates `source`, `globals_arg`,
`locals_arg` in order; after each child records a `BaseException` exit when the
child may raise, and truncates to the evaluated children when the child
unconditionally raises; when no child unconditionally raises, records a
possible `BaseException` exit and returns the node unchanged (the constant
source-string branch of the source returns the node unchanged as well). -/
def StatementExec.computeStatement (node : StatementExec) (tc0 : TraceCollection) :
    ComputeResult × TraceCollection :=
  let source_code := tc0.onExpression node.source
  let tc1 := if source_code.mayRaiseException ExcClass.baseException then
    tc0.onExceptionRaiseExit ExcClass.baseException else tc0
  if source_code.willRaiseAnyException then
    (⟨StmtReplacement.rawExpression source_code, some ChangeTag.new_raise⟩, tc1)
  else
    let globals_arg := tc1.onExpressionOpt node.globals_arg
    let tc2 := if mayRaiseBaseOpt globals_arg then
      tc1.onExceptionRaiseExit ExcClass.baseException else tc1
    if raisesOpt globals_arg then
      (⟨makeStatementOnlyNodesFromExpressions [some source_code, globals_arg],
        some ChangeTag.new_raise⟩, tc2)
    else
      let locals_arg := tc2.onExpressionOpt node.locals_arg
      let tc3 := if mayRaiseBaseOpt locals_arg then
        tc2.onExceptionRaiseExit ExcClass.baseException else tc2
      if raisesOpt locals_arg then
        (⟨makeStatementOnlyNodesFromExpressions [some source_code, globals_arg, locals_arg],
          some ChangeTag.new_raise⟩, tc3)
      else
        let tc4 := tc3.onExceptionRaiseExit ExcClass.baseException
        if (node.source.str_value).isSome then
          (⟨StmtReplacement.self, none⟩, tc4)
        else
          (⟨StmtReplacement.self, none⟩, tc4)

/-- `ExpressionBuiltinExec`: the Python3 exec-as-expression node with its
`in_early_closure` slot and three children. -/
structure ExpressionBuiltinExec : Type where
  in_early_closure : Bool
  source_code : Expr
  globals_arg : Option Expr
  locals_arg : Option Expr
deriving DecidableEq, Repr

/-- Boolean instance-attribute lookup on `ExpressionBuiltinExec`, from the
source's `__slots__ = ("in_early_closure",)` and `__init__`: the only Boolean
instance attribute ever defined is `in_early_closure` (no definition of
`early_closure` exists anywhere under src); looking up any other name raises
`AttributeError`, modelled as `none`. -/
def ExpressionBuiltinExec.getBoolAttr (node : ExpressionBuiltinExec) (attr : String) :
    Option Bool :=
  if attr = "in_early_closure" then some node.in_early_closure else none

/-- Result of `ExpressionBuiltinExec.computeExpressionDrop`: either the
attribute lookup of `self.early_closure` fails (AttributeError), or the node is
replaced by a `StatementExec`, or the enclosing statement is returned
unchanged. -/
inductive ExecDropResult : Type
  | attributeError
  | replacedByStatementExec (s : StatementExec)
  | unchangedStatement
deriving DecidableEq, Repr

/-- `ExpressionBuiltinExec.computeExpressionDrop`: reads `self.early_closure`
(the source's line 89), then either rewrites to `StatementExec` with the same
children or returns the statement unchanged. -/
def ExpressionBuiltinExec.computeExpressionDrop (node : ExpressionBuiltinExec) :
    ExecDropResult :=
  match node.getBoolAttr "early_closure" with
  | none => ExecDropResult.attributeError
  | some b =>
      if b then
        ExecDropResult.replacedByStatementExec
          (StatementExec.init node.source_code node.globals_arg node.locals_arg)
      else
        ExecDropResult.unchangedStatement

/-- `StatementLocalsDictSync`: the locals-resync statement with its scope, its
`locals_arg` child, and the two trace-cache slots assigned during compute. -/
structure StatementLocalsDictSync : Type where
  locals_scope : Nat
  locals_arg : Expr
  previous_traces : Option (List Nat)
  variable_traces : Option (List Nat)
deriving DecidableEq, Repr

/-- `StatementLocalsDictSync.mayRaiseException`: statically `False` for every
exception class. -/
def StatementLocalsDictSync.mayRaiseException (exception_type : ExcClass) : Bool :=
  false

/-- Result of `StatementLocalsDictSync.computeStatement`: the pass-through of a
replacement produced by the inherited child computation, deletion of the node
(`None` replacement), or the node kept (with its trace-cache slots updated). -/
inductive SyncResult : Type
  | subReplaced
  | deleted (tag : ChangeTag)
  | unchangedNode (node : StatementLocalsDictSync)
deriving DecidableEq, Repr

/-- `StatementLocalsDictSync.computeStatement`.  The inherited
`computeStatementSubExpressions` (from `StatementChildHavingBase`, not under
src) is modelled from the spec by the Boolean `sub_expression_left_in_place`:
when false its replacement is passed through unchanged.  Likewise
`getParentVariableProvider().isCompiledPythonModule()` is the Boolean
`provider_is_compiled_python_module`.  The source assigns `previous_traces`
before the emptiness test; the assignment is observable only on the kept node,
which is how it is modelled here. -/
def StatementLocalsDictSync.computeStatement (node : StatementLocalsDictSync)
    (sub_expression_left_in_place : Bool) (provider_is_compiled_python_module : Bool)
    (tc : TraceCollection) : SyncResult × TraceCollection :=
  if !sub_expression_left_in_place then
    (SyncResult.subReplaced, tc)
  else if provider_is_compiled_python_module then
    (SyncResult.deleted ChangeTag.new_statements, tc)
  else
    let q := tc.onLocalsUsage node.locals_scope
    let previous_traces := q.2
    if previous_traces.isEmpty then
      (SyncResult.deleted ChangeTag.new_statements, q.1)
    else
      let tc2 := q.1.removeAllKnowledge
      let q2 := tc2.onLocalsUsage node.locals_scope
      (SyncResult.unchangedNode
        { node with previous_traces := some previous_traces, variable_traces := some q2.2 },
        q2.1)

/-- The truncation produced by `StatementRaiseException.computeStatement`, as
the claim describes it amended: the evaluated children up to and including the
first unconditionally raising child, except that in the `exception_cause`
branch only `exception_type` and `exception_cause` are kept (the source omits
`exception_value` and `exception_trace` there); `none` when no child
unconditionally raises. -/
def raiseTruncationAmended (t v tr c : Option Expr) : Option (List (Option Expr)) :=
  if raisesOpt t then some [t]
  else if raisesOpt v then some [t, v]
  else if raisesOpt tr then some [t, v, tr]
  else if raisesOpt c then some [t, c]
  else none

/-- The truncation exactly as the claim states it: the evaluated children up to
and including the first unconditionally raising child, with no later child and
nothing of the evaluated ones dropped. -/
def raiseTruncationClaimed (t v tr c : Option Expr) : Option (List (Option Expr)) :=
  if raisesOpt t then some [t]
  else if raisesOpt v then some [t, v]
  else if raisesOpt tr then some [t, v, tr]
  else if raisesOpt c then some [t, v, tr, c]
  else none

/-- Packages a truncation decision as the compute result the claim describes:
side-effect-only statements over the present truncated children tagged
`new_raise`, or the node unchanged with no tag. -/
def computeResultOfTruncation : Option (List (Option Expr)) → ComputeResult
  | some l => ⟨StmtReplacement.exprStatements (l.filterMap id), some ChangeTag.new_raise⟩
  | none => ⟨StmtReplacement.self, none⟩

/-- A child expression with only an id and a `willRaiseAnyException` flag set. -/
def mkExpr (n : Nat) (w : Bool) : Expr :=
  { eid := n, will_raise := w, may_raise := [], is_constant_none := false, str_value := none }

/-- A trace collection whose `onExpression` leaves every child unchanged, with
no recorded locals usage and an empty event log. -/
def idTC : TraceCollection :=
  { oracle := fun e => e, locals_usage := fun _ => [], events := [] }

theorem onExpressionOpt_onExceptionRaiseExit (tc : TraceCollection) (c : ExcClass)
    (e : Option Expr) : (tc.onExceptionRaiseExit c).onExpressionOpt e = tc.onExpressionOpt e :=
  rfl

@[simp]
theorem raisesOpt_some (e : Expr) : raisesOpt (some e) = e.willRaiseAnyException :=
  rfl

@[simp]
theorem raisesOpt_none : raisesOpt none = false :=
  rfl

/-- Claim C1 (amended): `StatementRaiseException.computeStatement` truncates to
the evaluated children up to and including the first unconditionally raising
child for the `exception_type` / `exception_value` / `exception_trace`
branches, but in the `exception_cause` branch the replacement keeps only
`exception_type` and `exception_cause`, dropping the already-evaluated
`exception_value` and `exception_trace`; with no raising child the node is
returned unchanged with no tag. -/
theorem raise_compute_matches_amended_truncation (node : StatementRaiseException)
    (tc : TraceCollection) :
    (node.computeStatement tc).1 =
      computeResultOfTruncation
        (raiseTruncationAmended (tc.onExpressionOpt node.exception_type)
          (tc.onExpressionOpt node.exception_value)
          (tc.onExpressionOpt node.exception_trace)
          (tc.onExpressionOpt node.exception_cause)) := by
  cases hT : node.exception_type with
  | some a =>
      by_cases hw : (tc.oracle a).willRaiseAnyException
      · simp [StatementRaiseException.computeStatement, TraceCollection.onExpressionOpt,
          hT, hw, raiseTruncationAmended, computeResultOfTruncation,
          makeStatementExpressionOnlyReplacementNode]
      · by_cases hv : raisesOpt (Option.map tc.oracle node.exception_value) <;>
        by_cases htr : raisesOpt (Option.map tc.oracle node.exception_trace) <;>
        by_cases hc : raisesOpt (Option.map tc.oracle node.exception_cause) <;>
        simp [StatementRaiseException.computeStatement, StatementRaiseException.afterType,
          TraceCollection.onExpressionOpt, TraceCollection.onExceptionRaiseExit,
          hT, hw, hv, htr, hc, raiseTruncationAmended, computeResultOfTruncation,
          makeStatementOnlyNodesFromExpressions]
  | none =>
      by_cases hv : raisesOpt (Option.map tc.oracle node.exception_value) <;>
      by_cases htr : raisesOpt (Option.map tc.oracle node.exception_trace) <;>
      by_cases hc : raisesOpt (Option.map tc.oracle node.exception_cause) <;>
      simp [StatementRaiseException.computeStatement, StatementRaiseException.afterType,
        TraceCollection.onExpressionOpt, TraceCollection.onExceptionRaiseExit,
        hT, hv, htr, hc, raiseTruncationAmended, computeResultOfTruncation,
        makeStatementOnlyNodesFromExpressions]

/-- A raise statement whose `exception_cause` child unconditionally raises
while `exception_type`, `exception_value` and `exception_trace` are all present
and side-effecting but non-raising. -/
def c1CexNode : StatementRaiseException :=
  { kind := RaiseStmtKind.explicitRaise
    exception_type := some (mkExpr 1 false)
    exception_value := some (mkExpr 2 false)
    exception_trace := some (mkExpr 3 false)
    exception_cause := some (mkExpr 4 true)
    reraise_finally := false }

/-- Claim C1 counterexample: on a node whose `exception_cause` unconditionally
raises while `exception_value` and `exception_trace` are present, the source
produces the replacement `[exception_type, exception_cause]`, not the claimed
full evaluated prefix `[exception_type, exception_value, exception_trace,
exception_cause]`. -/
theorem raise_cause_branch_drops_value_and_trace :
    (c1CexNode.computeStatement idTC).1
      = ⟨StmtReplacement.exprStatements [mkExpr 1 false, mkExpr 4 true],
          some ChangeTag.new_raise⟩
    ∧ raiseTruncationClaimed (some (mkExpr 1 false)) (some (mkExpr 2 false))
        (some (mkExpr 3 false)) (some (mkExpr 4 true))
      = some [some (mkExpr 1 false), some (mkExpr 2 false), some (mkExpr 3 false),
          some (mkExpr 4 true)]
    ∧ (c1CexNode.computeStatement idTC).1
      ≠ computeResultOfTruncation
          (some [some (mkExpr 1 false), some (mkExpr 2 false), some (mkExpr 3 false),
            some (mkExpr 4 true)]) := by
  refine ⟨rfl, rfl, ?_⟩
  decide

/-- The progressive-nesting invariant from the spec: `exception_value` is
absent whenever `exception_type` is absent, and `exception_trace` is absent
whenever `exception_value` is absent. -/
def progressiveNesting (node : StatementRaiseException) : Bool :=
  (node.exception_type.isSome || node.exception_value.isNone)
    && (node.exception_value.isSome || node.exception_trace.isNone)

/-- Claim C6: `StatementRaiseException.__init__` fails its assertions exactly
when `exception_type` is absent (which covers `exception_value` present with
`exception_type` absent) or `exception_trace` is present with `exception_value`
absent, and every successfully constructed node satisfies the
progressive-nesting invariant. -/
theorem raise_init_assertions_and_invariant (t v tr c : Option Expr) :
    ((StatementRaiseException.init t v tr c).isNone
        = (t.isNone || (v.isNone && tr.isSome)))
    ∧ Option.all progressiveNesting (StatementRaiseException.init t v tr c) = true := by
  constructor <;> cases t <;> cases v <;> cases tr <;>
    simp [StatementRaiseException.init, progressiveNesting, Option.all]

/-- Claim C7: `ExpressionRaiseException.computeExpressionDrop` produces a
`StatementRaiseExceptionImplicit` whose `exception_type` / `exception_value`
children are the original expression's children with `exception_trace` and
`exception_cause` absent, clears the original node's parent back-reference, and
tags the rewrite `new_raise`. -/
theorem raise_expression_drop_demotes_to_implicit (e : ExpressionRaiseException) :
    (e.computeExpressionDrop).replacement =
      { kind := RaiseStmtKind.implicitRaise
        exception_type := some e.exception_type
        exception_value := some e.exception_value
        exception_trace := none
        exception_cause := none
        reraise_finally := false }
    ∧ (e.computeExpressionDrop).detached = { e with parent := none }
    ∧ (e.computeExpressionDrop).tag = some ChangeTag.new_raise :=
  ⟨rfl, rfl, rfl⟩

/-- Claim C8: `StatementReraiseException.computeStatement` records a
`BaseException` raise exit on the trace collection and returns the node itself
unchanged with no change tag. -/
theorem reraise_compute_records_exit_and_returns_unchanged (tc : TraceCollection) :
    StatementReraiseException.computeStatement tc =
      (⟨StmtReplacement.self, none⟩,
        { tc with events := tc.events ++ [TraceEvent.exceptionRaiseExit ExcClass.baseException] }) :=
  rfl

/-- Claim C2 (code-bug evidence): `ExpressionBuiltinExec.computeExpressionDrop`
reads `self.early_closure`, an attribute that is never defined (the slot,
`__init__`, and `getDetails` all use `in_early_closure`), so the call fails
with `AttributeError` for every node instead of rewriting to `StatementExec`
(for `in_early_closure` true) or returning the statement unchanged. -/
theorem exec_drop_always_attribute_error (node : ExpressionBuiltinExec) :
    node.computeExpressionDrop = ExecDropResult.attributeError := by
  simp [ExpressionBuiltinExec.computeExpressionDrop, ExpressionBuiltinExec.getBoolAttr]

/-- Modelled from the spec (the claim C3 sentences): the decision table for
`StatementLocalsDictSync.computeStatement` once the `locals_arg` computation
has left the node in place — module-level provider deletes the node; an empty
`onLocalsUsage` record set deletes the node; otherwise all knowledge is removed
and `onLocalsUsage` is queried again afterwards, keeping the node. -/
def localsDictSyncSpec (node : StatementLocalsDictSync)
    (provider_is_compiled_python_module : Bool) (tc : TraceCollection) :
    SyncResult × TraceCollection :=
  if provider_is_compiled_python_module then
    (SyncResult.deleted ChangeTag.new_statements, tc)
  else
    let usage := tc.locals_usage node.locals_scope
    let tc1 := { tc with events := tc.events ++ [TraceEvent.localsUsage node.locals_scope] }
    if usage.isEmpty then
      (SyncResult.deleted ChangeTag.new_statements, tc1)
    else
      let tc2 := { tc1 with events := tc1.events ++ [TraceEvent.removeAllKnowledge] }
      let tc3 := { tc2 with events := tc2.events ++ [TraceEvent.localsUsage node.locals_scope] }
      (SyncResult.unchangedNode
        { node with previous_traces := some usage, variable_traces := some usage }, tc3)

/-- Claim C3: when the `locals_arg` computation leaves the node in place,
`StatementLocalsDictSync.computeStatement` deletes the node under a compiled
Python module provider, deletes it when `onLocalsUsage` returns no records, and
otherwise calls `removeAllKnowledge` followed by a second `onLocalsUsage` query
and keeps the node. -/
theorem locals_dict_sync_compute_matches_spec (node : StatementLocalsDictSync)
    (provider_is_compiled_python_module : Bool) (tc : TraceCollection) :
    node.computeStatement true provider_is_compiled_python_module tc =
      localsDictSyncSpec node provider_is_compiled_python_module tc := by
  by_cases hp : provider_is_compiled_python_module <;>
  by_cases hu : (tc.locals_usage node.locals_scope).isEmpty <;>
  simp [StatementLocalsDictSync.computeStatement, localsDictSyncSpec, hp, hu,
    TraceCollection.onLocalsUsage, TraceCollection.removeAllKnowledge]

/-- The truncation the claim describes for `StatementExec.computeStatement`:
the evaluated children in order `source`, `globals_arg`, `locals_arg` up to and
including the first unconditionally raising child; `none` when no child
unconditionally raises. -/
def execTruncationSpec (s : Expr) (g l : Option Expr) : Option (List Expr) :=
  if s.willRaiseAnyException then some [s]
  else if raisesOpt g then some (List.filterMap id [some s, g])
  else if raisesOpt l then some (List.filterMap id [some s, g, l])
  else none

/-- The observable pair (expressions kept in the replacement, change tag) the
claim predicts for an exec-statement compute from a truncation decision. -/
def execObservedSpec : Option (List Expr) → List Expr × Option ChangeTag
  | some p => (p, some ChangeTag.new_raise)
  | none => ([], none)

theorem getLast_append_single {α : Type} (l : List α) (a : α) :
    (l ++ [a]).getLast? = some a := by
  induction l with
  | nil => rfl
  | cons x xs ih =>
      cases xs with
      | nil => rfl
      | cons y ys => simpa [List.getLast?_cons_cons] using ih

/-- Claim C4: `StatementExec.computeStatement` evaluates `source`, then
`globals_arg`, then `locals_arg`; the first child whose evaluation
unconditionally raises truncates the statement to exactly the evaluated
children (tagged `new_raise`), and when no child unconditionally raises the
node is returned unchanged with no tag after recording a possible
`BaseException` exit as the last fact on the trace collection. -/
theorem exec_compute_truncation_and_possible_exit (node : StatementExec)
    (tc : TraceCollection) :
    ((replacementExprs ((node.computeStatement tc).1).replacement,
        ((node.computeStatement tc).1).tag)
      = execObservedSpec (execTruncationSpec (tc.oracle node.source)
          (Option.map tc.oracle node.globals_arg) (Option.map tc.oracle node.locals_arg)))
    ∧ (execTruncationSpec (tc.oracle node.source) (Option.map tc.oracle node.globals_arg)
          (Option.map tc.oracle node.locals_arg) = none →
        ((node.computeStatement tc).1).replacement = StmtReplacement.self
        ∧ ((node.computeStatement tc).2).events.getLast?
            = some (TraceEvent.exceptionRaiseExit ExcClass.baseException)) := by
  by_cases hs : (tc.oracle node.source).willRaiseAnyException <;>
  by_cases hms : (tc.oracle node.source).mayRaiseException ExcClass.baseException <;>
  by_cases hg : raisesOpt (Option.map tc.oracle node.globals_arg) <;>
  by_cases hmg : mayRaiseBaseOpt (Option.map tc.oracle node.globals_arg) <;>
  by_cases hl : raisesOpt (Option.map tc.oracle node.locals_arg) <;>
  by_cases hml : mayRaiseBaseOpt (Option.map tc.oracle node.locals_arg) <;>
  simp [StatementExec.computeStatement, TraceCollection.onExpression,
    TraceCollection.onExpressionOpt, TraceCollection.onExceptionRaiseExit,
    execTruncationSpec, execObservedSpec, replacementExprs,
    makeStatementOnlyNodesFromExpressions, hs, hms, hg, hmg, hl, hml,
    getLast_append_single]

/-- An exec statement none of whose children can raise. -/
def c4Node : StatementExec :=
  { source := mkExpr 20 false, globals_arg := none, locals_arg := none }

/-- Witness for claim C4: on a concrete exec statement with no raising child,
the truncation hypothesis holds and the node is returned unchanged with the
possible exception exit recorded last. -/
theorem exec_compute_truncation_and_possible_exit_witness :
    execTruncationSpec (idTC.oracle c4Node.source) (Option.map idTC.oracle c4Node.globals_arg)
        (Option.map idTC.oracle c4Node.locals_arg) = none
    ∧ ((c4Node.computeStatement idTC).1).replacement = StmtReplacement.self
    ∧ ((c4Node.computeStatement idTC).2).events.getLast?
        = some (TraceEvent.exceptionRaiseExit ExcClass.baseException) := by
  refine ⟨by decide, ?_, ?_⟩
  · exact ((exec_compute_truncation_and_possible_exit c4Node idTC).2 (by decide)).1
  · exact ((exec_compute_truncation_and_possible_exit c4Node idTC).2 (by decide)).2

/-- Claim C5: supplying constant-`None` literals for `globals_arg` and
`locals_arg` of `StatementExec` is normalized at construction to the argument
being absent, so the resulting node equals the one built with both omitted. -/
theorem exec_stmt_none_children_normalized (source_code gN lN : Expr)
    (hg : gN.is_constant_none = true) (hl : lN.is_constant_none = true) :
    StatementExec.init source_code (some gN) (some lN)
      = StatementExec.init source_code none none := by
  simp [StatementExec.init, convertNoneConstantToNone, hg, hl]

/-- A constant-`None` literal child expression. -/
def constNoneExpr : Expr :=
  { eid := 30, will_raise := false, may_raise := [], is_constant_none := true,
    str_value := none }

/-- Witness for claim C5 at a concrete constant-`None` literal. -/
theorem exec_stmt_none_children_normalized_witness :
    constNoneExpr.is_constant_none = true
    ∧ StatementExec.init (mkExpr 31 false) (some constNoneExpr) (some constNoneExpr)
        = StatementExec.init (mkExpr 31 false) none none :=
  ⟨rfl, exec_stmt_none_children_normalized (mkExpr 31 false) constNoneExpr constNoneExpr rfl rfl⟩

/-- Claim C9: for both exception-construction node kinds, `mayRaiseException`
holds exactly when some constructor-argument child may raise that class, and
`computeExpression` returns the node unchanged with no tag. -/
theorem make_exception_may_raise_existential_and_final
    (m : ExpressionBuiltinMakeException) (im : ExpressionBuiltinMakeExceptionImportError)
    (c : ExcClass) (tc : TraceCollection) :
    (m.mayRaiseException c = true ↔ ∃ arg ∈ m.args, arg.mayRaiseException c = true)
    ∧ (im.mayRaiseException c = true ↔ ∃ arg ∈ im.args, arg.mayRaiseException c = true)
    ∧ m.computeExpression tc = ((m, none), tc)
    ∧ im.computeExpression tc = ((im, none), tc) := by
  refine ⟨?_, ?_, rfl, rfl⟩ <;>
  simp [ExpressionBuiltinMakeException.mayRaiseException,
    ExpressionBuiltinMakeExceptionImportError.mayRaiseException, List.any_eq_true]

/-- A constructor argument that may raise exception class 7. -/
def c9Arg : Expr :=
  { eid := 40, will_raise := false, may_raise := [ExcClass.cls 7], is_constant_none := false,
    str_value := none }

/-- Witness for claim C9 at a concrete one-argument construction. -/
theorem make_exception_may_raise_witness :
    ({ exception_name := 0, args := [c9Arg] } : ExpressionBuiltinMakeException).mayRaiseException
      (ExcClass.cls 7) = true :=
  ((make_exception_may_raise_existential_and_final ⟨0, [c9Arg]⟩ ⟨[], none, none⟩
      (ExcClass.cls 7) idTC).1).mpr ⟨c9Arg, by decide, by decide⟩

/-- Claim C10: `StatementLocalsDictSync.mayRaiseException` reports `False` for
every exception class. -/
theorem locals_dict_sync_never_raises (c : ExcClass) :
    StatementLocalsDictSync.mayRaiseException c = false :=
  rfl
